import Mathlib

set_option maxRecDepth 10000

/-!
Verification of `paddleslim/quant/observers/abs_max_weight.py`
(`AbsMaxChannelWiseWeightObserver` / `AbsMaxChannelWiseWeightObserverLayer`).

Modelling conventions:
* Tensor element arithmetic is modelled exactly over `ℚ` (the specification's
  data model treats tensor values as real numbers).
* The Python scalar `factor` accumulator (`factor = 0.3; while factor <= 1.0:
  ...; factor += 0.02`) is a double-precision (IEEE 754 binary64) loop whose
  rounding drift decides how many grid candidates exist, so it is modelled
  bit-exactly: a binary64 value is the rational it denotes, and each `+=`
  rounds the exact rational sum back to 53 significant bits
  (round-to-nearest, ties-to-even).  Every quantity appearing in this loop
  lies in `[1/64, 4)`, so the exponent finder and the power-of-two table only
  need to cover that range.
* Fallible Python calls are modelled with `Except String`; Python's `None` is
  `Option.none`.
* Elementwise tensor operations act independently on each channel slice, and
  the per-channel reductions (`paddle.max`, `.mean`) reduce over exactly the
  non-channel axes, so the vectorised search loop of `_cal_abs_max` is
  embedded as a per-channel scalar loop mapped over the list of channel
  slices (`channelView`).
-/

/-! ### Binary64 model of the Python `factor` accumulator -/

/-- Round a rational to the nearest integer, ties to even: the rounding
applied to a binary64 significand by IEEE 754 round-to-nearest. -/
def roundEven (x : ℚ) : ℤ :=
  if x - ⌊x⌋ < 1/2 then ⌊x⌋
  else if 1/2 < x - ⌊x⌋ then ⌊x⌋ + 1
  else if ⌊x⌋ % 2 = 0 then ⌊x⌋ else ⌊x⌋ + 1

/-- Floor of the base-2 logarithm of a rational, by explicit range tests;
valid for arguments in `[1/128, 4)`, which covers every value taken by the
Python `factor` loop (factors in `[0.3, 1.03)` and the literal `0.02`). -/
def expApprox (q : ℚ) : ℤ :=
  if q < 1/64 then -7
  else if q < 1/32 then -6
  else if q < 1/16 then -5
  else if q < 1/8 then -4
  else if q < 1/4 then -3
  else if q < 1/2 then -2
  else if q < 1 then -1
  else if q < 2 then 0
  else 1

/-- The power of two `2 ^ (52 - e)` for each exponent `e` produced by
`expApprox`, written as explicit numerals. -/
def scalePow2 (e : ℤ) : ℚ :=
  if e = -7 then 576460752303423488
  else if e = -6 then 288230376151711744
  else if e = -5 then 144115188075855872
  else if e = -4 then 72057594037927936
  else if e = -3 then 36028797018963968
  else if e = -2 then 18014398509481984
  else if e = -1 then 9007199254740992
  else if e = 0 then 4503599627370496
  else 2251799813685248

/-- Round a positive rational to the nearest IEEE 754 binary64 value
(53 significant bits, ties to even); valid on `[1/128, 4)`. -/
def flr (q : ℚ) : ℚ :=
  ((roundEven (q * scalePow2 (expApprox q)) : ℤ) : ℚ) / scalePow2 (expApprox q)

/-- The binary64 value denoted by the Python literal `0.02` (the loop step). -/
def dbl002 : ℚ := flr (1/50)

/-- The binary64 value denoted by the Python literal `0.3` (the first factor). -/
def dbl03 : ℚ := flr (3/10)

/-- The Python loop `factor = f; while factor <= 1.0: visit factor;
factor += 0.02`, collecting the visited factors.  Each `+=` is an exact
rational addition followed by binary64 rounding.  The `fuel` argument bounds
the number of iterations purely to make the recursion structural; `100`
exceeds any possible iteration count of this loop (`floatLoop_fuel_irrelevant`
below shows the loop exits through its `factor <= 1.0` test, not the fuel). -/
def floatLoop : Nat → ℚ → List ℚ
  | 0, _ => []
  | fuel + 1, f => if f ≤ 1 then f :: floatLoop fuel (flr (f + dbl002)) else []

/-- The candidate factors actually visited by
`AbsMaxChannelWiseWeightObserverLayer._cal_abs_max`. -/
def floatFactors : List ℚ := floatLoop 100 dbl03

/-! ### The per-channel scale search (`_cal_abs_max`) -/

/-- `paddle.round`: round to the nearest integer, halves away from zero
(the semantics of `std::round`, used by the paddle kernel). -/
def rnd (x : ℚ) : ℚ :=
  if 0 ≤ x then ((⌊x + 1/2⌋ : ℤ) : ℚ) else -((⌊-x + 1/2⌋ : ℤ) : ℚ)

/-- `paddle.clip(x, lo, hi) = min(max(x, lo), hi)`. -/
def clip (x lo hi : ℚ) : ℚ := min (max x lo) hi

/-- One simulated quantize–dequantize round trip of `_cal_abs_max`:
`quant_var = clip(round(x / scale * qmax), qmin, qmax)` followed by
`quant_dequant_var = quant_var / qmax * scale`. -/
def quantDequant (qmin qmax scale x : ℚ) : ℚ :=
  clip (rnd (x / scale * qmax)) qmin qmax / qmax * scale

/-- `mse_loss = ((inputs - quant_dequant_var)**2).mean(axis=reduce_axis)` for
one channel slice: the mean squared reconstruction error of the channel's
elements at the given scale. -/
def mseLoss (qmin qmax scale : ℚ) (xs : List ℚ) : ℚ :=
  ((xs.map fun x => (x - quantDequant qmin qmax scale x) ^ 2).sum) /
    (xs.length : ℚ)

/-- `paddle.max(paddle.abs(inputs), axis=reduce_axis)` for one channel slice:
the maximum absolute value of the channel's elements. -/
def absMaxRaw (xs : List ℚ) : ℚ := xs.foldl (fun m x => max m |x|) 0

/-- `paddle.where(abs_max_values == 0.0, 1e-8, abs_max_values)` for one
channel: a channel whose absolute maximum is exactly zero gets `1e-8`. -/
def epsAbsMax (xs : List ℚ) : ℚ :=
  if absMaxRaw xs = 0 then 1/100000000 else absMaxRaw xs

/-- The comparison `mse_loss < minimum_loss` of one channel, where the
initial `minimum_loss` entry is `float('inf')`, modelled as `none`. -/
def lossLt (mse : ℚ) : Option ℚ → Bool
  | none => true
  | some v => decide (mse < v)

/-- The update `minimum_loss = paddle.minimum(mse_loss, minimum_loss)` of one
channel (`none` is `float('inf')`). -/
def updLoss (mse : ℚ) : Option ℚ → Option ℚ
  | none => some mse
  | some v => some (min mse v)

/-- One iteration of the `while factor <= 1.0` body of `_cal_abs_max`,
restricted to one channel: the state is the channel's entry of
`(result, minimum_loss)`, and the candidate scale is `factor * abs_max`
(`result = paddle.where(mse_loss < minimum_loss, scales, result)` then
`minimum_loss = paddle.minimum(mse_loss, minimum_loss)`). -/
def searchStep (qmin qmax A : ℚ) (xs : List ℚ) (st : ℚ × Option ℚ)
    (factor : ℚ) : ℚ × Option ℚ :=
  (if lossLt (mseLoss qmin qmax (factor * A) xs) st.2 then factor * A
   else st.1,
   updLoss (mseLoss qmin qmax (factor * A) xs) st.2)

/-- The whole grid search of `_cal_abs_max` for one channel slice: starting
from `result = abs_max_values` and `minimum_loss = inf`, fold the loop body
over the binary64 factor sequence and return the channel's `result` entry. -/
def searchChannel (qmin qmax : ℚ) (xs : List ℚ) : ℚ :=
  (floatFactors.foldl (searchStep qmin qmax (epsAbsMax xs) xs)
    (epsAbsMax xs, none)).1

/-! ### Tensors and the channel view -/

/-- A real-valued tensor: a shape and its elements in row-major order. -/
structure Tensor where
  shape : List Nat
  data : List ℚ

/-- The row-major stride of `axis`: the product of the dimensions after it. -/
def stride (shape : List Nat) (axis : Nat) : Nat :=
  ((shape.drop (axis + 1)).prod)

/-- The coordinate along `axis` of the element at row-major flat index `i`
(`0` when `axis` is outside the rank, matching a reduction over all axes). -/
def coordAt (shape : List Nat) (axis : Nat) (i : Nat) : Nat :=
  (i / stride shape axis) % shape.getD axis 1

/-- The channel slices of a tensor along `axis`: element `c` lists, in order,
the tensor elements whose coordinate along `axis` is `c`.  When `axis` is
within the rank there is one slice per index of that axis; when it is outside
the rank the reduction axes of `_cal_abs_max` cover every dimension, which
amounts to a single slice holding all elements. -/
def channelView (t : Tensor) (axis : Nat) : List (List ℚ) :=
  (List.range (t.shape.getD axis 1)).map fun c =>
    ((t.data.enum.filter fun p => coordAt t.shape axis p.1 = c).map Prod.snd)

/-! ### The observer layer state -/

/-- Modelled from the spec: the `qmin_qmax` property of the `UniformObserver`
base class (its file is not part of the sources here) for the fixed
configuration `sign=True, symmetric=True` used by this observer:
`qmin = -(2^(b-1) - 1)`. -/
def qminOf (b : Nat) : ℚ := -((2:ℚ) ^ (b - 1) - 1)

/-- Modelled from the spec: `qmax = 2^(b-1) - 1` (see `qminOf`). -/
def qmaxOf (b : Nat) : ℚ := (2:ℚ) ^ (b - 1) - 1

/-- The mutable state of `AbsMaxChannelWiseWeightObserverLayer`: the fixed
configuration (`quant_bits`, the channel axis delivered by the
`ChannelWiseObserver` base class, `qmin`, `qmax`) and the lazily computed
fields `_max`, `_scale`, `_zero_point` (`none` is Python `None`). -/
structure ObserverState where
  quant_bits : Nat
  quant_axis : Nat
  qmin : ℚ
  qmax : ℚ
  _max : Option (List ℚ)
  _scale : Option (List ℚ)
  _zero_point : Option (List ℚ)

/-- The state built by `__init__`: configuration set, all cached fields
`None`.  The channel axis is the value the `ChannelWiseObserver` base class
derives from the observed layer's type (modelled as a parameter, per the
spec: ChannelAxis is fixed at construction time). -/
def initObserver (b ax : Nat) : ObserverState :=
  { quant_bits := b
    quant_axis := ax
    qmin := qminOf b
    qmax := qmaxOf b
    _max := none
    _scale := none
    _zero_point := none }

/-- `_cal_abs_max(inputs)`: the grid-searched per-channel scales of the
input tensor, one entry per channel slice along the observer's channel
axis. -/
def calAbsMax (s : ObserverState) (t : Tensor) : List ℚ :=
  (channelView t s.quant_axis).map (searchChannel s.qmin s.qmax)

/-- `forward(inputs)`: if `self._max is None`, store
`self._cal_abs_max(inputs)`; return `inputs` unchanged. -/
def forward (s : ObserverState) (t : Tensor) : ObserverState × Tensor :=
  match s._max with
  | none => ({ s with _max := some (calAbsMax s t) }, t)
  | some _ => (s, t)

/-- `min_value()`: always `0.`. -/
def min_value (_ : ObserverState) : ℚ := 0

/-- `max_value()`: returns `self._max` as it stands — Python `None` when
`forward` has never run. -/
def max_value (s : ObserverState) : Option (List ℚ) := s._max

/-- `cal_thresholds()`: `self._scale = self._max` followed by
`self._zero_point = paddle.zeros_like(self._scale)`.  When `self._max` is
still `None` the `zeros_like` call receives `None` and raises (modelled as an
error); note the scale assignment has already happened by then. -/
def cal_thresholds (s : ObserverState) : Except String ObserverState :=
  match s._max with
  | none => Except.error "TypeError: paddle.zeros_like received None"
  | some m =>
      Except.ok { s with _scale := some m
                         _zero_point := some (m.map fun _ => (0 : ℚ)) }

/-- `scales()`: run `cal_thresholds` when `self._scale is None`, then return
`self._scale` (paired with the possibly updated state). -/
def scales (s : ObserverState) : Except String (ObserverState × List ℚ) :=
  match s._scale with
  | some sc => Except.ok (s, sc)
  | none =>
      match cal_thresholds s with
      | Except.error e => Except.error e
      | Except.ok s' =>
          match s'._scale with
          | some sc => Except.ok (s', sc)
          | none => Except.error "unreachable"

/-- `zero_points()`: run `cal_thresholds` when `self._zero_point is None`,
then return `self._zero_point` (paired with the possibly updated state). -/
def zero_points (s : ObserverState) : Except String (ObserverState × List ℚ) :=
  match s._zero_point with
  | some zp => Except.ok (s, zp)
  | none =>
      match cal_thresholds s with
      | Except.error e => Except.error e
      | Except.ok s' =>
          match s'._zero_point with
          | some zp => Except.ok (s', zp)
          | none => Except.error "unreachable"

/-! ### Theorems.  First: the binary64 factor grid, computed once. -/

/-- Unfolding lemma for one iteration of `floatLoop`. -/
theorem floatLoop_succ (n : Nat) (f : ℚ) :
    floatLoop (n + 1) f =
      if f ≤ 1 then f :: floatLoop n (flr (f + dbl002)) else [] := rfl

/-- Evaluation scheme for `flr` at a concrete argument. -/
theorem flr_eval (q x r : ℚ) (e n : ℤ) (he : expApprox q = e)
    (hx : q * scalePow2 e = x) (hn : roundEven x = n)
    (hr : (n : ℚ) / scalePow2 e = r) : flr q = r := by
  rw [flr, he, hx, hn, hr]

/-- Evaluation scheme for `roundEven` when the fractional part is below
one half. -/
theorem roundEven_eval_lt (x : ℚ) (m : ℤ) (hm : ⌊x⌋ = m)
    (hlt : x - m < 1/2) : roundEven x = m := by
  rw [roundEven, hm, if_pos hlt]

/-- Evaluation scheme for `roundEven` when the fractional part is above
one half. -/
theorem roundEven_eval_gt (x : ℚ) (m n : ℤ) (hm : ⌊x⌋ = m)
    (hgt : 1/2 < x - m) (hn : m + 1 = n) : roundEven x = n := by
  rw [roundEven, hm, if_neg (by linarith), if_pos hgt, hn]

/-- The binary64 value of the literal `0.02`, evaluated. -/
theorem dbl002_eq : dbl002 = 5764607523034235/288230376151711744 := by
  unfold dbl002
  refine flr_eval (1/50) (144115188075855872/25) (5764607523034235/288230376151711744) (-6) (5764607523034235) ?_ ?_ ?_ ?_
  · norm_num [expApprox]
  · norm_num [scalePow2]
  · exact roundEven_eval_gt (144115188075855872/25) (5764607523034234) (5764607523034235) (by rw [Int.floor_eq_iff]; norm_num) (by norm_num) (by norm_num)
  · norm_num [scalePow2]

/-- The binary64 value of the literal `0.3`, evaluated: the first grid
factor of the search loop. -/
theorem dbl03_eq : dbl03 = 5404319552844595/18014398509481984 := by
  unfold dbl03
  refine flr_eval (3/10) (27021597764222976/5) (5404319552844595/18014398509481984) (-2) (5404319552844595) ?_ ?_ ?_ ?_
  · norm_num [expApprox]
  · norm_num [scalePow2]
  · exact roundEven_eval_lt (27021597764222976/5) (5404319552844595) (by rw [Int.floor_eq_iff]; norm_num) (by norm_num)
  · norm_num [scalePow2]

/-- The binary64 `factor` loop visits exactly these 35 values: the grid
drifts upward by accumulated rounding error, the value after the 35th
candidate is `1 + 2^-51 > 1`, and the loop stops there, so the factor
`1.0` is never visited. -/
theorem floatFactors_eq : floatFactors =
    [5404319552844595/18014398509481984, 5764607523034235/18014398509481984, 6124895493223875/18014398509481984,
      6485183463413515/18014398509481984, 6845471433603155/18014398509481984, 7205759403792795/18014398509481984,
      7566047373982435/18014398509481984, 7926335344172075/18014398509481984, 8286623314361715/18014398509481984,
      8646911284551355/18014398509481984, 4503599627370497/9007199254740992, 4683743612465317/9007199254740992,
      4863887597560137/9007199254740992, 5044031582654957/9007199254740992, 5224175567749777/9007199254740992,
      5404319552844597/9007199254740992, 5584463537939417/9007199254740992, 5764607523034237/9007199254740992,
      5944751508129057/9007199254740992, 6124895493223877/9007199254740992, 6305039478318697/9007199254740992,
      6485183463413517/9007199254740992, 6665327448508337/9007199254740992, 6845471433603157/9007199254740992,
      7025615418697977/9007199254740992, 7205759403792797/9007199254740992, 7385903388887617/9007199254740992,
      7566047373982437/9007199254740992, 7746191359077257/9007199254740992, 7926335344172077/9007199254740992,
      8106479329266897/9007199254740992, 8286623314361717/9007199254740992, 8466767299456537/9007199254740992,
      8646911284551357/9007199254740992, 8827055269646177/9007199254740992]
    := by
  have hd := dbl002_eq
  have h0 := dbl03_eq
  have hs0 : flr ((5404319552844595/18014398509481984 : ℚ) + dbl002) = 5764607523034235/18014398509481984 := by
    rw [hd]
    have hq : (5404319552844595/18014398509481984 : ℚ) + 5764607523034235/288230376151711744 = 92233720368547755/288230376151711744 := by norm_num
    rw [hq]
    refine flr_eval (92233720368547755/288230376151711744) (92233720368547755/16) (5764607523034235/18014398509481984) (-2) (5764607523034235) ?_ ?_ ?_ ?_
    · norm_num [expApprox]
    · norm_num [scalePow2]
    · exact roundEven_eval_gt (92233720368547755/16) (5764607523034234) (5764607523034235) (by rw [Int.floor_eq_iff]; norm_num) (by norm_num) (by norm_num)
    · norm_num [scalePow2]
  have hs1 : flr ((5764607523034235/18014398509481984 : ℚ) + dbl002) = 6124895493223875/18014398509481984 := by
    rw [hd]
    have hq : (5764607523034235/18014398509481984 : ℚ) + 5764607523034235/288230376151711744 = 97998327891581995/288230376151711744 := by norm_num
    rw [hq]
    refine flr_eval (97998327891581995/288230376151711744) (97998327891581995/16) (6124895493223875/18014398509481984) (-2) (6124895493223875) ?_ ?_ ?_ ?_
    · norm_num [expApprox]
    · norm_num [scalePow2]
    · exact roundEven_eval_gt (97998327891581995/16) (6124895493223874) (6124895493223875) (by rw [Int.floor_eq_iff]; norm_num) (by norm_num) (by norm_num)
    · norm_num [scalePow2]
  have hs2 : flr ((6124895493223875/18014398509481984 : ℚ) + dbl002) = 6485183463413515/18014398509481984 := by
    rw [hd]
    have hq : (6124895493223875/18014398509481984 : ℚ) + 5764607523034235/288230376151711744 = 103762935414616235/288230376151711744 := by norm_num
    rw [hq]
    refine flr_eval (103762935414616235/288230376151711744) (103762935414616235/16) (6485183463413515/18014398509481984) (-2) (6485183463413515) ?_ ?_ ?_ ?_
    · norm_num [expApprox]
    · norm_num [scalePow2]
    · exact roundEven_eval_gt (103762935414616235/16) (6485183463413514) (6485183463413515) (by rw [Int.floor_eq_iff]; norm_num) (by norm_num) (by norm_num)
    · norm_num [scalePow2]
  have hs3 : flr ((6485183463413515/18014398509481984 : ℚ) + dbl002) = 6845471433603155/18014398509481984 := by
    rw [hd]
    have hq : (6485183463413515/18014398509481984 : ℚ) + 5764607523034235/288230376151711744 = 109527542937650475/288230376151711744 := by norm_num
    rw [hq]
    refine flr_eval (109527542937650475/288230376151711744) (109527542937650475/16) (6845471433603155/18014398509481984) (-2) (6845471433603155) ?_ ?_ ?_ ?_
    · norm_num [expApprox]
    · norm_num [scalePow2]
    · exact roundEven_eval_gt (109527542937650475/16) (6845471433603154) (6845471433603155) (by rw [Int.floor_eq_iff]; norm_num) (by norm_num) (by norm_num)
    · norm_num [scalePow2]
  have hs4 : flr ((6845471433603155/18014398509481984 : ℚ) + dbl002) = 7205759403792795/18014398509481984 := by
    rw [hd]
    have hq : (6845471433603155/18014398509481984 : ℚ) + 5764607523034235/288230376151711744 = 115292150460684715/288230376151711744 := by norm_num
    rw [hq]
    refine flr_eval (115292150460684715/288230376151711744) (115292150460684715/16) (7205759403792795/18014398509481984) (-2) (7205759403792795) ?_ ?_ ?_ ?_
    · norm_num [expApprox]
    · norm_num [scalePow2]
    · exact roundEven_eval_gt (115292150460684715/16) (7205759403792794) (7205759403792795) (by rw [Int.floor_eq_iff]; norm_num) (by norm_num) (by norm_num)
    · norm_num [scalePow2]
  have hs5 : flr ((7205759403792795/18014398509481984 : ℚ) + dbl002) = 7566047373982435/18014398509481984 := by
    rw [hd]
    have hq : (7205759403792795/18014398509481984 : ℚ) + 5764607523034235/288230376151711744 = 121056757983718955/288230376151711744 := by norm_num
    rw [hq]
    refine flr_eval (121056757983718955/288230376151711744) (121056757983718955/16) (7566047373982435/18014398509481984) (-2) (7566047373982435) ?_ ?_ ?_ ?_
    · norm_num [expApprox]
    · norm_num [scalePow2]
    · exact roundEven_eval_gt (121056757983718955/16) (7566047373982434) (7566047373982435) (by rw [Int.floor_eq_iff]; norm_num) (by norm_num) (by norm_num)
    · norm_num [scalePow2]
  have hs6 : flr ((7566047373982435/18014398509481984 : ℚ) + dbl002) = 7926335344172075/18014398509481984 := by
    rw [hd]
    have hq : (7566047373982435/18014398509481984 : ℚ) + 5764607523034235/288230376151711744 = 126821365506753195/288230376151711744 := by norm_num
    rw [hq]
    refine flr_eval (126821365506753195/288230376151711744) (126821365506753195/16) (7926335344172075/18014398509481984) (-2) (7926335344172075) ?_ ?_ ?_ ?_
    · norm_num [expApprox]
    · norm_num [scalePow2]
    · exact roundEven_eval_gt (126821365506753195/16) (7926335344172074) (7926335344172075) (by rw [Int.floor_eq_iff]; norm_num) (by norm_num) (by norm_num)
    · norm_num [scalePow2]
  have hs7 : flr ((7926335344172075/18014398509481984 : ℚ) + dbl002) = 8286623314361715/18014398509481984 := by
    rw [hd]
    have hq : (7926335344172075/18014398509481984 : ℚ) + 5764607523034235/288230376151711744 = 132585973029787435/288230376151711744 := by norm_num
    rw [hq]
    refine flr_eval (132585973029787435/288230376151711744) (132585973029787435/16) (8286623314361715/18014398509481984) (-2) (8286623314361715) ?_ ?_ ?_ ?_
    · norm_num [expApprox]
    · norm_num [scalePow2]
    · exact roundEven_eval_gt (132585973029787435/16) (8286623314361714) (8286623314361715) (by rw [Int.floor_eq_iff]; norm_num) (by norm_num) (by norm_num)
    · norm_num [scalePow2]
  have hs8 : flr ((8286623314361715/18014398509481984 : ℚ) + dbl002) = 8646911284551355/18014398509481984 := by
    rw [hd]
    have hq : (8286623314361715/18014398509481984 : ℚ) + 5764607523034235/288230376151711744 = 138350580552821675/288230376151711744 := by norm_num
    rw [hq]
    refine flr_eval (138350580552821675/288230376151711744) (138350580552821675/16) (8646911284551355/18014398509481984) (-2) (8646911284551355) ?_ ?_ ?_ ?_
    · norm_num [expApprox]
    · norm_num [scalePow2]
    · exact roundEven_eval_gt (138350580552821675/16) (8646911284551354) (8646911284551355) (by rw [Int.floor_eq_iff]; norm_num) (by norm_num) (by norm_num)
    · norm_num [scalePow2]
  have hs9 : flr ((8646911284551355/18014398509481984 : ℚ) + dbl002) = 4503599627370497/9007199254740992 := by
    rw [hd]
    have hq : (8646911284551355/18014398509481984 : ℚ) + 5764607523034235/288230376151711744 = 144115188075855915/288230376151711744 := by norm_num
    rw [hq]
    refine flr_eval (144115188075855915/288230376151711744) (144115188075855915/32) (4503599627370497/9007199254740992) (-1) (4503599627370497) ?_ ?_ ?_ ?_
    · norm_num [expApprox]
    · norm_num [scalePow2]
    · exact roundEven_eval_lt (144115188075855915/32) (4503599627370497) (by rw [Int.floor_eq_iff]; norm_num) (by norm_num)
    · norm_num [scalePow2]
  have hs10 : flr ((4503599627370497/9007199254740992 : ℚ) + dbl002) = 4683743612465317/9007199254740992 := by
    rw [hd]
    have hq : (4503599627370497/9007199254740992 : ℚ) + 5764607523034235/288230376151711744 = 149879795598890139/288230376151711744 := by norm_num
    rw [hq]
    refine flr_eval (149879795598890139/288230376151711744) (149879795598890139/32) (4683743612465317/9007199254740992) (-1) (4683743612465317) ?_ ?_ ?_ ?_
    · norm_num [expApprox]
    · norm_num [scalePow2]
    · exact roundEven_eval_gt (149879795598890139/32) (4683743612465316) (4683743612465317) (by rw [Int.floor_eq_iff]; norm_num) (by norm_num) (by norm_num)
    · norm_num [scalePow2]
  have hs11 : flr ((4683743612465317/9007199254740992 : ℚ) + dbl002) = 4863887597560137/9007199254740992 := by
    rw [hd]
    have hq : (4683743612465317/9007199254740992 : ℚ) + 5764607523034235/288230376151711744 = 155644403121924379/288230376151711744 := by norm_num
    rw [hq]
    refine flr_eval (155644403121924379/288230376151711744) (155644403121924379/32) (4863887597560137/9007199254740992) (-1) (4863887597560137) ?_ ?_ ?_ ?_
    · norm_num [expApprox]
    · norm_num [scalePow2]
    · exact roundEven_eval_gt (155644403121924379/32) (4863887597560136) (4863887597560137) (by rw [Int.floor_eq_iff]; norm_num) (by norm_num) (by norm_num)
    · norm_num [scalePow2]
  have hs12 : flr ((4863887597560137/9007199254740992 : ℚ) + dbl002) = 5044031582654957/9007199254740992 := by
    rw [hd]
    have hq : (4863887597560137/9007199254740992 : ℚ) + 5764607523034235/288230376151711744 = 161409010644958619/288230376151711744 := by norm_num
    rw [hq]
    refine flr_eval (161409010644958619/288230376151711744) (161409010644958619/32) (5044031582654957/9007199254740992) (-1) (5044031582654957) ?_ ?_ ?_ ?_
    · norm_num [expApprox]
    · norm_num [scalePow2]
    · exact roundEven_eval_gt (161409010644958619/32) (5044031582654956) (5044031582654957) (by rw [Int.floor_eq_iff]; norm_num) (by norm_num) (by norm_num)
    · norm_num [scalePow2]
  have hs13 : flr ((5044031582654957/9007199254740992 : ℚ) + dbl002) = 5224175567749777/9007199254740992 := by
    rw [hd]
    have hq : (5044031582654957/9007199254740992 : ℚ) + 5764607523034235/288230376151711744 = 167173618167992859/288230376151711744 := by norm_num
    rw [hq]
    refine flr_eval (167173618167992859/288230376151711744) (167173618167992859/32) (5224175567749777/9007199254740992) (-1) (5224175567749777) ?_ ?_ ?_ ?_
    · norm_num [expApprox]
    · norm_num [scalePow2]
    · exact roundEven_eval_gt (167173618167992859/32) (5224175567749776) (5224175567749777) (by rw [Int.floor_eq_iff]; norm_num) (by norm_num) (by norm_num)
    · norm_num [scalePow2]
  have hs14 : flr ((5224175567749777/9007199254740992 : ℚ) + dbl002) = 5404319552844597/9007199254740992 := by
    rw [hd]
    have hq : (5224175567749777/9007199254740992 : ℚ) + 5764607523034235/288230376151711744 = 172938225691027099/288230376151711744 := by norm_num
    rw [hq]
    refine flr_eval (172938225691027099/288230376151711744) (172938225691027099/32) (5404319552844597/9007199254740992) (-1) (5404319552844597) ?_ ?_ ?_ ?_
    · norm_num [expApprox]
    · norm_num [scalePow2]
    · exact roundEven_eval_gt (172938225691027099/32) (5404319552844596) (5404319552844597) (by rw [Int.floor_eq_iff]; norm_num) (by norm_num) (by norm_num)
    · norm_num [scalePow2]
  have hs15 : flr ((5404319552844597/9007199254740992 : ℚ) + dbl002) = 5584463537939417/9007199254740992 := by
    rw [hd]
    have hq : (5404319552844597/9007199254740992 : ℚ) + 5764607523034235/288230376151711744 = 178702833214061339/288230376151711744 := by norm_num
    rw [hq]
    refine flr_eval (178702833214061339/288230376151711744) (178702833214061339/32) (5584463537939417/9007199254740992) (-1) (5584463537939417) ?_ ?_ ?_ ?_
    · norm_num [expApprox]
    · norm_num [scalePow2]
    · exact roundEven_eval_gt (178702833214061339/32) (5584463537939416) (5584463537939417) (by rw [Int.floor_eq_iff]; norm_num) (by norm_num) (by norm_num)
    · norm_num [scalePow2]
  have hs16 : flr ((5584463537939417/9007199254740992 : ℚ) + dbl002) = 5764607523034237/9007199254740992 := by
    rw [hd]
    have hq : (5584463537939417/9007199254740992 : ℚ) + 5764607523034235/288230376151711744 = 184467440737095579/288230376151711744 := by norm_num
    rw [hq]
    refine flr_eval (184467440737095579/288230376151711744) (184467440737095579/32) (5764607523034237/9007199254740992) (-1) (5764607523034237) ?_ ?_ ?_ ?_
    · norm_num [expApprox]
    · norm_num [scalePow2]
    · exact roundEven_eval_gt (184467440737095579/32) (5764607523034236) (5764607523034237) (by rw [Int.floor_eq_iff]; norm_num) (by norm_num) (by norm_num)
    · norm_num [scalePow2]
  have hs17 : flr ((5764607523034237/9007199254740992 : ℚ) + dbl002) = 5944751508129057/9007199254740992 := by
    rw [hd]
    have hq : (5764607523034237/9007199254740992 : ℚ) + 5764607523034235/288230376151711744 = 190232048260129819/288230376151711744 := by norm_num
    rw [hq]
    refine flr_eval (190232048260129819/288230376151711744) (190232048260129819/32) (5944751508129057/9007199254740992) (-1) (5944751508129057) ?_ ?_ ?_ ?_
    · norm_num [expApprox]
    · norm_num [scalePow2]
    · exact roundEven_eval_gt (190232048260129819/32) (5944751508129056) (5944751508129057) (by rw [Int.floor_eq_iff]; norm_num) (by norm_num) (by norm_num)
    · norm_num [scalePow2]
  have hs18 : flr ((5944751508129057/9007199254740992 : ℚ) + dbl002) = 6124895493223877/9007199254740992 := by
    rw [hd]
    have hq : (5944751508129057/9007199254740992 : ℚ) + 5764607523034235/288230376151711744 = 195996655783164059/288230376151711744 := by norm_num
    rw [hq]
    refine flr_eval (195996655783164059/288230376151711744) (195996655783164059/32) (6124895493223877/9007199254740992) (-1) (6124895493223877) ?_ ?_ ?_ ?_
    · norm_num [expApprox]
    · norm_num [scalePow2]
    · exact roundEven_eval_gt (195996655783164059/32) (6124895493223876) (6124895493223877) (by rw [Int.floor_eq_iff]; norm_num) (by norm_num) (by norm_num)
    · norm_num [scalePow2]
  have hs19 : flr ((6124895493223877/9007199254740992 : ℚ) + dbl002) = 6305039478318697/9007199254740992 := by
    rw [hd]
    have hq : (6124895493223877/9007199254740992 : ℚ) + 5764607523034235/288230376151711744 = 201761263306198299/288230376151711744 := by norm_num
    rw [hq]
    refine flr_eval (201761263306198299/288230376151711744) (201761263306198299/32) (6305039478318697/9007199254740992) (-1) (6305039478318697) ?_ ?_ ?_ ?_
    · norm_num [expApprox]
    · norm_num [scalePow2]
    · exact roundEven_eval_gt (201761263306198299/32) (6305039478318696) (6305039478318697) (by rw [Int.floor_eq_iff]; norm_num) (by norm_num) (by norm_num)
    · norm_num [scalePow2]
  have hs20 : flr ((6305039478318697/9007199254740992 : ℚ) + dbl002) = 6485183463413517/9007199254740992 := by
    rw [hd]
    have hq : (6305039478318697/9007199254740992 : ℚ) + 5764607523034235/288230376151711744 = 207525870829232539/288230376151711744 := by norm_num
    rw [hq]
    refine flr_eval (207525870829232539/288230376151711744) (207525870829232539/32) (6485183463413517/9007199254740992) (-1) (6485183463413517) ?_ ?_ ?_ ?_
    · norm_num [expApprox]
    · norm_num [scalePow2]
    · exact roundEven_eval_gt (207525870829232539/32) (6485183463413516) (6485183463413517) (by rw [Int.floor_eq_iff]; norm_num) (by norm_num) (by norm_num)
    · norm_num [scalePow2]
  have hs21 : flr ((6485183463413517/9007199254740992 : ℚ) + dbl002) = 6665327448508337/9007199254740992 := by
    rw [hd]
    have hq : (6485183463413517/9007199254740992 : ℚ) + 5764607523034235/288230376151711744 = 213290478352266779/288230376151711744 := by norm_num
    rw [hq]
    refine flr_eval (213290478352266779/288230376151711744) (213290478352266779/32) (6665327448508337/9007199254740992) (-1) (6665327448508337) ?_ ?_ ?_ ?_
    · norm_num [expApprox]
    · norm_num [scalePow2]
    · exact roundEven_eval_gt (213290478352266779/32) (6665327448508336) (6665327448508337) (by rw [Int.floor_eq_iff]; norm_num) (by norm_num) (by norm_num)
    · norm_num [scalePow2]
  have hs22 : flr ((6665327448508337/9007199254740992 : ℚ) + dbl002) = 6845471433603157/9007199254740992 := by
    rw [hd]
    have hq : (6665327448508337/9007199254740992 : ℚ) + 5764607523034235/288230376151711744 = 219055085875301019/288230376151711744 := by norm_num
    rw [hq]
    refine flr_eval (219055085875301019/288230376151711744) (219055085875301019/32) (6845471433603157/9007199254740992) (-1) (6845471433603157) ?_ ?_ ?_ ?_
    · norm_num [expApprox]
    · norm_num [scalePow2]
    · exact roundEven_eval_gt (219055085875301019/32) (6845471433603156) (6845471433603157) (by rw [Int.floor_eq_iff]; norm_num) (by norm_num) (by norm_num)
    · norm_num [scalePow2]
  have hs23 : flr ((6845471433603157/9007199254740992 : ℚ) + dbl002) = 7025615418697977/9007199254740992 := by
    rw [hd]
    have hq : (6845471433603157/9007199254740992 : ℚ) + 5764607523034235/288230376151711744 = 224819693398335259/288230376151711744 := by norm_num
    rw [hq]
    refine flr_eval (224819693398335259/288230376151711744) (224819693398335259/32) (7025615418697977/9007199254740992) (-1) (7025615418697977) ?_ ?_ ?_ ?_
    · norm_num [expApprox]
    · norm_num [scalePow2]
    · exact roundEven_eval_gt (224819693398335259/32) (7025615418697976) (7025615418697977) (by rw [Int.floor_eq_iff]; norm_num) (by norm_num) (by norm_num)
    · norm_num [scalePow2]
  have hs24 : flr ((7025615418697977/9007199254740992 : ℚ) + dbl002) = 7205759403792797/9007199254740992 := by
    rw [hd]
    have hq : (7025615418697977/9007199254740992 : ℚ) + 5764607523034235/288230376151711744 = 230584300921369499/288230376151711744 := by norm_num
    rw [hq]
    refine flr_eval (230584300921369499/288230376151711744) (230584300921369499/32) (7205759403792797/9007199254740992) (-1) (7205759403792797) ?_ ?_ ?_ ?_
    · norm_num [expApprox]
    · norm_num [scalePow2]
    · exact roundEven_eval_gt (230584300921369499/32) (7205759403792796) (7205759403792797) (by rw [Int.floor_eq_iff]; norm_num) (by norm_num) (by norm_num)
    · norm_num [scalePow2]
  have hs25 : flr ((7205759403792797/9007199254740992 : ℚ) + dbl002) = 7385903388887617/9007199254740992 := by
    rw [hd]
    have hq : (7205759403792797/9007199254740992 : ℚ) + 5764607523034235/288230376151711744 = 236348908444403739/288230376151711744 := by norm_num
    rw [hq]
    refine flr_eval (236348908444403739/288230376151711744) (236348908444403739/32) (7385903388887617/9007199254740992) (-1) (7385903388887617) ?_ ?_ ?_ ?_
    · norm_num [expApprox]
    · norm_num [scalePow2]
    · exact roundEven_eval_gt (236348908444403739/32) (7385903388887616) (7385903388887617) (by rw [Int.floor_eq_iff]; norm_num) (by norm_num) (by norm_num)
    · norm_num [scalePow2]
  have hs26 : flr ((7385903388887617/9007199254740992 : ℚ) + dbl002) = 7566047373982437/9007199254740992 := by
    rw [hd]
    have hq : (7385903388887617/9007199254740992 : ℚ) + 5764607523034235/288230376151711744 = 242113515967437979/288230376151711744 := by norm_num
    rw [hq]
    refine flr_eval (242113515967437979/288230376151711744) (242113515967437979/32) (7566047373982437/9007199254740992) (-1) (7566047373982437) ?_ ?_ ?_ ?_
    · norm_num [expApprox]
    · norm_num [scalePow2]
    · exact roundEven_eval_gt (242113515967437979/32) (7566047373982436) (7566047373982437) (by rw [Int.floor_eq_iff]; norm_num) (by norm_num) (by norm_num)
    · norm_num [scalePow2]
  have hs27 : flr ((7566047373982437/9007199254740992 : ℚ) + dbl002) = 7746191359077257/9007199254740992 := by
    rw [hd]
    have hq : (7566047373982437/9007199254740992 : ℚ) + 5764607523034235/288230376151711744 = 247878123490472219/288230376151711744 := by norm_num
    rw [hq]
    refine flr_eval (247878123490472219/288230376151711744) (247878123490472219/32) (7746191359077257/9007199254740992) (-1) (7746191359077257) ?_ ?_ ?_ ?_
    · norm_num [expApprox]
    · norm_num [scalePow2]
    · exact roundEven_eval_gt (247878123490472219/32) (7746191359077256) (7746191359077257) (by rw [Int.floor_eq_iff]; norm_num) (by norm_num) (by norm_num)
    · norm_num [scalePow2]
  have hs28 : flr ((7746191359077257/9007199254740992 : ℚ) + dbl002) = 7926335344172077/9007199254740992 := by
    rw [hd]
    have hq : (7746191359077257/9007199254740992 : ℚ) + 5764607523034235/288230376151711744 = 253642731013506459/288230376151711744 := by norm_num
    rw [hq]
    refine flr_eval (253642731013506459/288230376151711744) (253642731013506459/32) (7926335344172077/9007199254740992) (-1) (7926335344172077) ?_ ?_ ?_ ?_
    · norm_num [expApprox]
    · norm_num [scalePow2]
    · exact roundEven_eval_gt (253642731013506459/32) (7926335344172076) (7926335344172077) (by rw [Int.floor_eq_iff]; norm_num) (by norm_num) (by norm_num)
    · norm_num [scalePow2]
  have hs29 : flr ((7926335344172077/9007199254740992 : ℚ) + dbl002) = 8106479329266897/9007199254740992 := by
    rw [hd]
    have hq : (7926335344172077/9007199254740992 : ℚ) + 5764607523034235/288230376151711744 = 259407338536540699/288230376151711744 := by norm_num
    rw [hq]
    refine flr_eval (259407338536540699/288230376151711744) (259407338536540699/32) (8106479329266897/9007199254740992) (-1) (8106479329266897) ?_ ?_ ?_ ?_
    · norm_num [expApprox]
    · norm_num [scalePow2]
    · exact roundEven_eval_gt (259407338536540699/32) (8106479329266896) (8106479329266897) (by rw [Int.floor_eq_iff]; norm_num) (by norm_num) (by norm_num)
    · norm_num [scalePow2]
  have hs30 : flr ((8106479329266897/9007199254740992 : ℚ) + dbl002) = 8286623314361717/9007199254740992 := by
    rw [hd]
    have hq : (8106479329266897/9007199254740992 : ℚ) + 5764607523034235/288230376151711744 = 265171946059574939/288230376151711744 := by norm_num
    rw [hq]
    refine flr_eval (265171946059574939/288230376151711744) (265171946059574939/32) (8286623314361717/9007199254740992) (-1) (8286623314361717) ?_ ?_ ?_ ?_
    · norm_num [expApprox]
    · norm_num [scalePow2]
    · exact roundEven_eval_gt (265171946059574939/32) (8286623314361716) (8286623314361717) (by rw [Int.floor_eq_iff]; norm_num) (by norm_num) (by norm_num)
    · norm_num [scalePow2]
  have hs31 : flr ((8286623314361717/9007199254740992 : ℚ) + dbl002) = 8466767299456537/9007199254740992 := by
    rw [hd]
    have hq : (8286623314361717/9007199254740992 : ℚ) + 5764607523034235/288230376151711744 = 270936553582609179/288230376151711744 := by norm_num
    rw [hq]
    refine flr_eval (270936553582609179/288230376151711744) (270936553582609179/32) (8466767299456537/9007199254740992) (-1) (8466767299456537) ?_ ?_ ?_ ?_
    · norm_num [expApprox]
    · norm_num [scalePow2]
    · exact roundEven_eval_gt (270936553582609179/32) (8466767299456536) (8466767299456537) (by rw [Int.floor_eq_iff]; norm_num) (by norm_num) (by norm_num)
    · norm_num [scalePow2]
  have hs32 : flr ((8466767299456537/9007199254740992 : ℚ) + dbl002) = 8646911284551357/9007199254740992 := by
    rw [hd]
    have hq : (8466767299456537/9007199254740992 : ℚ) + 5764607523034235/288230376151711744 = 276701161105643419/288230376151711744 := by norm_num
    rw [hq]
    refine flr_eval (276701161105643419/288230376151711744) (276701161105643419/32) (8646911284551357/9007199254740992) (-1) (8646911284551357) ?_ ?_ ?_ ?_
    · norm_num [expApprox]
    · norm_num [scalePow2]
    · exact roundEven_eval_gt (276701161105643419/32) (8646911284551356) (8646911284551357) (by rw [Int.floor_eq_iff]; norm_num) (by norm_num) (by norm_num)
    · norm_num [scalePow2]
  have hs33 : flr ((8646911284551357/9007199254740992 : ℚ) + dbl002) = 8827055269646177/9007199254740992 := by
    rw [hd]
    have hq : (8646911284551357/9007199254740992 : ℚ) + 5764607523034235/288230376151711744 = 282465768628677659/288230376151711744 := by norm_num
    rw [hq]
    refine flr_eval (282465768628677659/288230376151711744) (282465768628677659/32) (8827055269646177/9007199254740992) (-1) (8827055269646177) ?_ ?_ ?_ ?_
    · norm_num [expApprox]
    · norm_num [scalePow2]
    · exact roundEven_eval_gt (282465768628677659/32) (8827055269646176) (8827055269646177) (by rw [Int.floor_eq_iff]; norm_num) (by norm_num) (by norm_num)
    · norm_num [scalePow2]
  have hs34 : flr ((8827055269646177/9007199254740992 : ℚ) + dbl002) = 2251799813685249/2251799813685248 := by
    rw [hd]
    have hq : (8827055269646177/9007199254740992 : ℚ) + 5764607523034235/288230376151711744 = 288230376151711899/288230376151711744 := by norm_num
    rw [hq]
    refine flr_eval (288230376151711899/288230376151711744) (288230376151711899/64) (2251799813685249/2251799813685248) (0) (4503599627370498) ?_ ?_ ?_ ?_
    · norm_num [expApprox]
    · norm_num [scalePow2]
    · exact roundEven_eval_lt (288230376151711899/64) (4503599627370498) (by rw [Int.floor_eq_iff]; norm_num) (by norm_num)
    · norm_num [scalePow2]
  show floatLoop 100 dbl03 = _
  rw [h0]
  rw [show (100 : Nat) = 99 + 1 from rfl, floatLoop_succ,
    if_pos (by norm_num : (5404319552844595/18014398509481984 : ℚ) ≤ 1), hs0]
  rw [show (99 : Nat) = 98 + 1 from rfl, floatLoop_succ,
    if_pos (by norm_num : (5764607523034235/18014398509481984 : ℚ) ≤ 1), hs1]
  rw [show (98 : Nat) = 97 + 1 from rfl, floatLoop_succ,
    if_pos (by norm_num : (6124895493223875/18014398509481984 : ℚ) ≤ 1), hs2]
  rw [show (97 : Nat) = 96 + 1 from rfl, floatLoop_succ,
    if_pos (by norm_num : (6485183463413515/18014398509481984 : ℚ) ≤ 1), hs3]
  rw [show (96 : Nat) = 95 + 1 from rfl, floatLoop_succ,
    if_pos (by norm_num : (6845471433603155/18014398509481984 : ℚ) ≤ 1), hs4]
  rw [show (95 : Nat) = 94 + 1 from rfl, floatLoop_succ,
    if_pos (by norm_num : (7205759403792795/18014398509481984 : ℚ) ≤ 1), hs5]
  rw [show (94 : Nat) = 93 + 1 from rfl, floatLoop_succ,
    if_pos (by norm_num : (7566047373982435/18014398509481984 : ℚ) ≤ 1), hs6]
  rw [show (93 : Nat) = 92 + 1 from rfl, floatLoop_succ,
    if_pos (by norm_num : (7926335344172075/18014398509481984 : ℚ) ≤ 1), hs7]
  rw [show (92 : Nat) = 91 + 1 from rfl, floatLoop_succ,
    if_pos (by norm_num : (8286623314361715/18014398509481984 : ℚ) ≤ 1), hs8]
  rw [show (91 : Nat) = 90 + 1 from rfl, floatLoop_succ,
    if_pos (by norm_num : (8646911284551355/18014398509481984 : ℚ) ≤ 1), hs9]
  rw [show (90 : Nat) = 89 + 1 from rfl, floatLoop_succ,
    if_pos (by norm_num : (4503599627370497/9007199254740992 : ℚ) ≤ 1), hs10]
  rw [show (89 : Nat) = 88 + 1 from rfl, floatLoop_succ,
    if_pos (by norm_num : (4683743612465317/9007199254740992 : ℚ) ≤ 1), hs11]
  rw [show (88 : Nat) = 87 + 1 from rfl, floatLoop_succ,
    if_pos (by norm_num : (4863887597560137/9007199254740992 : ℚ) ≤ 1), hs12]
  rw [show (87 : Nat) = 86 + 1 from rfl, floatLoop_succ,
    if_pos (by norm_num : (5044031582654957/9007199254740992 : ℚ) ≤ 1), hs13]
  rw [show (86 : Nat) = 85 + 1 from rfl, floatLoop_succ,
    if_pos (by norm_num : (5224175567749777/9007199254740992 : ℚ) ≤ 1), hs14]
  rw [show (85 : Nat) = 84 + 1 from rfl, floatLoop_succ,
    if_pos (by norm_num : (5404319552844597/9007199254740992 : ℚ) ≤ 1), hs15]
  rw [show (84 : Nat) = 83 + 1 from rfl, floatLoop_succ,
    if_pos (by norm_num : (5584463537939417/9007199254740992 : ℚ) ≤ 1), hs16]
  rw [show (83 : Nat) = 82 + 1 from rfl, floatLoop_succ,
    if_pos (by norm_num : (5764607523034237/9007199254740992 : ℚ) ≤ 1), hs17]
  rw [show (82 : Nat) = 81 + 1 from rfl, floatLoop_succ,
    if_pos (by norm_num : (5944751508129057/9007199254740992 : ℚ) ≤ 1), hs18]
  rw [show (81 : Nat) = 80 + 1 from rfl, floatLoop_succ,
    if_pos (by norm_num : (6124895493223877/9007199254740992 : ℚ) ≤ 1), hs19]
  rw [show (80 : Nat) = 79 + 1 from rfl, floatLoop_succ,
    if_pos (by norm_num : (6305039478318697/9007199254740992 : ℚ) ≤ 1), hs20]
  rw [show (79 : Nat) = 78 + 1 from rfl, floatLoop_succ,
    if_pos (by norm_num : (6485183463413517/9007199254740992 : ℚ) ≤ 1), hs21]
  rw [show (78 : Nat) = 77 + 1 from rfl, floatLoop_succ,
    if_pos (by norm_num : (6665327448508337/9007199254740992 : ℚ) ≤ 1), hs22]
  rw [show (77 : Nat) = 76 + 1 from rfl, floatLoop_succ,
    if_pos (by norm_num : (6845471433603157/9007199254740992 : ℚ) ≤ 1), hs23]
  rw [show (76 : Nat) = 75 + 1 from rfl, floatLoop_succ,
    if_pos (by norm_num : (7025615418697977/9007199254740992 : ℚ) ≤ 1), hs24]
  rw [show (75 : Nat) = 74 + 1 from rfl, floatLoop_succ,
    if_pos (by norm_num : (7205759403792797/9007199254740992 : ℚ) ≤ 1), hs25]
  rw [show (74 : Nat) = 73 + 1 from rfl, floatLoop_succ,
    if_pos (by norm_num : (7385903388887617/9007199254740992 : ℚ) ≤ 1), hs26]
  rw [show (73 : Nat) = 72 + 1 from rfl, floatLoop_succ,
    if_pos (by norm_num : (7566047373982437/9007199254740992 : ℚ) ≤ 1), hs27]
  rw [show (72 : Nat) = 71 + 1 from rfl, floatLoop_succ,
    if_pos (by norm_num : (7746191359077257/9007199254740992 : ℚ) ≤ 1), hs28]
  rw [show (71 : Nat) = 70 + 1 from rfl, floatLoop_succ,
    if_pos (by norm_num : (7926335344172077/9007199254740992 : ℚ) ≤ 1), hs29]
  rw [show (70 : Nat) = 69 + 1 from rfl, floatLoop_succ,
    if_pos (by norm_num : (8106479329266897/9007199254740992 : ℚ) ≤ 1), hs30]
  rw [show (69 : Nat) = 68 + 1 from rfl, floatLoop_succ,
    if_pos (by norm_num : (8286623314361717/9007199254740992 : ℚ) ≤ 1), hs31]
  rw [show (68 : Nat) = 67 + 1 from rfl, floatLoop_succ,
    if_pos (by norm_num : (8466767299456537/9007199254740992 : ℚ) ≤ 1), hs32]
  rw [show (67 : Nat) = 66 + 1 from rfl, floatLoop_succ,
    if_pos (by norm_num : (8646911284551357/9007199254740992 : ℚ) ≤ 1), hs33]
  rw [show (66 : Nat) = 65 + 1 from rfl, floatLoop_succ,
    if_pos (by norm_num : (8827055269646177/9007199254740992 : ℚ) ≤ 1), hs34]
  rw [show (65 : Nat) = 64 + 1 from rfl, floatLoop_succ,
    if_neg (by norm_num : ¬ ((2251799813685249/2251799813685248 : ℚ) ≤ 1))]

/-- The factor list is nonempty. -/
theorem floatFactors_ne_nil : floatFactors ≠ [] := by
  rw [floatFactors_eq]; simp

/-- Every visited factor is strictly between `0` and `1`. -/
theorem floatFactors_bounds : ∀ f ∈ floatFactors, 0 < f ∧ f < 1 := by
  intro f hf
  rw [floatFactors_eq] at hf
  fin_cases hf <;> constructor <;> norm_num

/-! ### Structural lemmas about the per-channel fold -/

/-- The `result` entry after folding any factor list is either the starting
entry or `f * abs_max` for one of the folded factors. -/
theorem foldSearch_result_mem (qmin qmax A : ℚ) (xs : List ℚ) :
    ∀ fs : List ℚ, ∀ st : ℚ × Option ℚ,
      (fs.foldl (searchStep qmin qmax A xs) st).1 = st.1 ∨
      ∃ f ∈ fs, (fs.foldl (searchStep qmin qmax A xs) st).1 = f * A := by
  intro fs
  induction fs with
  | nil => intro st; exact Or.inl rfl
  | cons g gs ih =>
    intro st
    simp only [List.foldl_cons]
    rcases ih (searchStep qmin qmax A xs st g) with h | ⟨f, hf, hfe⟩
    · rw [h]
      by_cases hc : lossLt (mseLoss qmin qmax (g * A) xs) st.2
      · exact Or.inr ⟨g, List.mem_cons_self g gs, by simp [searchStep, hc]⟩
      · exact Or.inl (by simp [searchStep, hc])
    · exact Or.inr ⟨f, List.mem_cons_of_mem g hf, hfe⟩

/-- Folding a nonempty factor list from the initial state
`(result, minimum_loss) = (r, inf)` always lands on `f * abs_max` for some
visited factor `f`: the first iteration's comparison `mse < inf` is true, so
the initial entry is overwritten immediately. -/
theorem foldSearch_none_mem (qmin qmax A : ℚ) (xs : List ℚ) (g : ℚ)
    (gs : List ℚ) (r : ℚ) :
    ∃ f ∈ g :: gs,
      ((g :: gs).foldl (searchStep qmin qmax A xs) (r, none)).1 = f * A := by
  simp only [List.foldl_cons]
  have hstep : searchStep qmin qmax A xs (r, none) g =
      (g * A, some (mseLoss qmin qmax (g * A) xs)) := by
    simp [searchStep, lossLt, updLoss]
  rw [hstep]
  rcases foldSearch_result_mem qmin qmax A xs gs
      (g * A, some (mseLoss qmin qmax (g * A) xs)) with h | ⟨f, hf, hfe⟩
  · exact ⟨g, List.mem_cons_self g gs, by rw [h]⟩
  · exact ⟨f, List.mem_cons_of_mem g hf, hfe⟩

/-- The scale returned by the search for a channel is always
`f * epsAbsMax` for some visited factor `f`. -/
theorem searchChannel_mem (qmin qmax : ℚ) (xs : List ℚ) :
    ∃ f ∈ floatFactors, searchChannel qmin qmax xs = f * epsAbsMax xs := by
  unfold searchChannel
  cases h : floatFactors with
  | nil => exact absurd h floatFactors_ne_nil
  | cons g gs =>
      exact foldSearch_none_mem qmin qmax (epsAbsMax xs) xs g gs (epsAbsMax xs)

/-! ### Lemmas about the per-channel absolute maximum -/

/-- The running maximum of `absMaxRaw` never drops below its start. -/
theorem absMax_foldl_init_le (xs : List ℚ) :
    ∀ a : ℚ, a ≤ xs.foldl (fun m x => max m |x|) a := by
  induction xs with
  | nil => intro a; exact le_refl a
  | cons y ys ih => intro a; exact le_trans (le_max_left a |y|) (ih (max a |y|))

/-- Every element's absolute value is bounded by the channel's running
maximum, whatever the start. -/
theorem abs_le_absMax_foldl (xs : List ℚ) :
    ∀ a : ℚ, ∀ x ∈ xs, |x| ≤ xs.foldl (fun m x => max m |x|) a := by
  induction xs with
  | nil => intro a x hx; exact absurd hx (List.not_mem_nil x)
  | cons y ys ih =>
    intro a x hx
    rcases List.mem_cons.mp hx with rfl | hx'
    · exact le_trans (le_max_right a |x|) (absMax_foldl_init_le ys (max a |x|))
    · exact ih (max a |y|) x hx'

/-- Every element's absolute value is bounded by the channel's `abs_max`. -/
theorem mem_abs_le_absMaxRaw (xs : List ℚ) (x : ℚ) (hx : x ∈ xs) :
    |x| ≤ absMaxRaw xs := abs_le_absMax_foldl xs 0 x hx

/-- The channel's `abs_max` is nonnegative. -/
theorem absMaxRaw_nonneg (xs : List ℚ) : 0 ≤ absMaxRaw xs :=
  absMax_foldl_init_le xs 0

/-- A channel of zeros has `abs_max = 0`. -/
theorem absMaxRaw_allzero : ∀ xs : List ℚ, (∀ x ∈ xs, x = 0) →
    absMaxRaw xs = 0 := by
  intro xs
  induction xs with
  | nil => intro _; rfl
  | cons y ys ih =>
    intro h
    have hy : y = 0 := h y (List.mem_cons_self y ys)
    have hstep : absMaxRaw (y :: ys) = absMaxRaw ys := by
      simp [absMaxRaw, hy]
    rw [hstep]
    exact ih fun x hx => h x (List.mem_cons_of_mem y hx)

/-- The epsilon-substituted `abs_max` is strictly positive for every
channel. -/
theorem epsAbsMax_pos (xs : List ℚ) : 0 < epsAbsMax xs := by
  unfold epsAbsMax
  by_cases h : absMaxRaw xs = 0
  · rw [if_pos h]; norm_num
  · rw [if_neg h]
    exact lt_of_le_of_ne (absMaxRaw_nonneg xs) (Ne.symm h)

/-- A channel holding a nonzero element keeps its true `abs_max` (the
epsilon substitution does not fire). -/
theorem epsAbsMax_of_nonzero (xs : List ℚ) (h : ∃ x ∈ xs, x ≠ 0) :
    epsAbsMax xs = absMaxRaw xs := by
  obtain ⟨x, hx, hx0⟩ := h
  unfold epsAbsMax
  rw [if_neg]
  intro h0
  have hle := mem_abs_le_absMaxRaw xs x hx
  rw [h0] at hle
  exact hx0 (abs_eq_zero.mp (le_antisymm hle (abs_nonneg x)))

/-- An all-zero channel's `abs_max` is replaced by `1e-8`. -/
theorem epsAbsMax_allzero (xs : List ℚ) (hz : ∀ x ∈ xs, x = 0) :
    epsAbsMax xs = 1/100000000 := by
  unfold epsAbsMax
  rw [absMaxRaw_allzero xs hz, if_pos rfl]

/-! ### Quantization range facts -/

/-- The symmetric signed range has a nonnegative upper endpoint. -/
theorem qmaxOf_nonneg (b : Nat) : 0 ≤ qmaxOf b := by
  unfold qmaxOf
  have h : (1:ℚ) ≤ 2 ^ (b - 1) :=
    one_le_pow₀ (by norm_num : (1:ℚ) ≤ 2)
  linarith

/-- The symmetric signed range has a nonpositive lower endpoint. -/
theorem qminOf_nonpos (b : Nat) : qminOf b ≤ 0 := by
  unfold qminOf
  have h := qmaxOf_nonneg b
  unfold qmaxOf at h
  linarith

/-! ### Quantize–dequantize facts -/

/-- `paddle.round(0) = 0`. -/
theorem rnd_zero : rnd 0 = 0 := by
  unfold rnd
  rw [if_pos (le_refl (0:ℚ))]
  rw [show (0:ℚ) + 1/2 = 1/2 by norm_num]
  rw [show ⌊(1/2:ℚ)⌋ = 0 from by rw [Int.floor_eq_iff]; norm_num]
  norm_num

/-- Clipping zero into a range containing zero gives zero. -/
theorem clip_zero (lo hi : ℚ) (h1 : lo ≤ 0) (h2 : 0 ≤ hi) :
    clip 0 lo hi = 0 := by
  unfold clip
  rw [max_eq_left h1, min_eq_left h2]

/-- A zero weight reconstructs exactly at every scale. -/
theorem quantDequant_zero (qmin qmax s : ℚ) (h1 : qmin ≤ 0) (h2 : 0 ≤ qmax) :
    quantDequant qmin qmax s 0 = 0 := by
  unfold quantDequant
  rw [zero_div, zero_mul, rnd_zero, clip_zero qmin qmax h1 h2, zero_div,
    zero_mul]

/-- An all-zero channel has zero reconstruction error at every scale. -/
theorem mseLoss_allzero (qmin qmax s : ℚ) (xs : List ℚ) (h1 : qmin ≤ 0)
    (h2 : 0 ≤ qmax) (hz : ∀ x ∈ xs, x = 0) : mseLoss qmin qmax s xs = 0 := by
  unfold mseLoss
  have hall : ∀ y ∈ xs.map fun x => (x - quantDequant qmin qmax s x) ^ 2,
      y = 0 := by
    intro y hy
    obtain ⟨x, hx, rfl⟩ := List.mem_map.mp hy
    rw [hz x hx, quantDequant_zero qmin qmax s h1 h2]
    norm_num
  rw [List.sum_eq_zero hall, zero_div]

/-- Once the per-channel loss entry is an exact zero, further iterations with
zero loss leave the `(result, minimum_loss)` entry untouched: the strict
comparison `mse < best` never fires again. -/
theorem foldSearch_zero (qmin qmax A : ℚ) (xs : List ℚ)
    (hz : ∀ s, mseLoss qmin qmax s xs = 0) :
    ∀ fs : List ℚ, ∀ r : ℚ,
      fs.foldl (searchStep qmin qmax A xs) (r, some 0) = (r, some 0) := by
  intro fs
  induction fs with
  | nil => intro r; rfl
  | cons g gs ih =>
    intro r
    simp only [List.foldl_cons]
    have hstep : searchStep qmin qmax A xs (r, some 0) g = (r, some 0) := by
      simp [searchStep, lossLt, updLoss, hz (g * A)]
    rw [hstep]
    exact ih r

/-- For an all-zero channel the search returns the first candidate scale,
`0.3 * 1e-8` (with `0.3` the binary64 value of the literal): the first
iteration improves on `inf` and every later tie at zero loss is ignored. -/
theorem searchChannel_allzero (qmin qmax : ℚ) (xs : List ℚ)
    (h1 : qmin ≤ 0) (h2 : 0 ≤ qmax) (hz : ∀ x ∈ xs, x = 0) :
    searchChannel qmin qmax xs = dbl03 * (1/100000000) := by
  have hz' : ∀ s, mseLoss qmin qmax s xs = 0 := fun s =>
    mseLoss_allzero qmin qmax s xs h1 h2 hz
  have heps : epsAbsMax xs = 1/100000000 := epsAbsMax_allzero xs hz
  unfold searchChannel
  rw [floatFactors_eq, List.foldl_cons]
  have h1st : searchStep qmin qmax (epsAbsMax xs) xs (epsAbsMax xs, none)
      (5404319552844595/18014398509481984) =
      ((5404319552844595/18014398509481984) * epsAbsMax xs, some 0) := by
    simp [searchStep, lossLt, updLoss,
      hz' ((5404319552844595/18014398509481984) * epsAbsMax xs)]
  rw [h1st, foldSearch_zero qmin qmax (epsAbsMax xs) xs hz' _ _]
  rw [heps, ← dbl03_eq]

/-- The searched scale of any channel is positive and bounded by the
channel's (epsilon-substituted) `abs_max`. -/
theorem searchChannel_pos_le (qmin qmax : ℚ) (xs : List ℚ) :
    0 < searchChannel qmin qmax xs ∧
    searchChannel qmin qmax xs ≤ epsAbsMax xs := by
  obtain ⟨f, hf, hfe⟩ := searchChannel_mem qmin qmax xs
  obtain ⟨hf0, hf1⟩ := floatFactors_bounds f hf
  constructor
  · rw [hfe]; exact mul_pos hf0 (epsAbsMax_pos xs)
  · rw [hfe]
    calc f * epsAbsMax xs ≤ 1 * epsAbsMax xs :=
          mul_le_mul_of_nonneg_right (le_of_lt hf1)
            (le_of_lt (epsAbsMax_pos xs))
      _ = epsAbsMax xs := one_mul _

/-- At any scale strictly below the weight value `1`, the reconstruction of
the one-element channel `[1]` undershoots, so its error is positive. -/
theorem mseLoss_single_one_pos (qmin qmax : ℚ) (hq : 0 < qmax) (s : ℚ)
    (hs : 0 ≤ s) (hs1 : s < 1) : 0 < mseLoss qmin qmax s [1] := by
  have hqd : quantDequant qmin qmax s 1 ≤ s := by
    unfold quantDequant clip
    have h1 : min (max (rnd (1 / s * qmax)) qmin) qmax ≤ qmax :=
      min_le_right _ _
    have h2 : min (max (rnd (1 / s * qmax)) qmin) qmax / qmax ≤ 1 := by
      rw [div_le_one hq]; exact h1
    calc min (max (rnd (1 / s * qmax)) qmin) qmax / qmax * s
        ≤ 1 * s := mul_le_mul_of_nonneg_right h2 hs
      _ = s := one_mul s
  have hsub : 0 < 1 - quantDequant qmin qmax s 1 := by linarith
  have hm : mseLoss qmin qmax s [1] =
      (1 - quantDequant qmin qmax s 1) ^ 2 := by
    simp [mseLoss]
  rw [hm]
  exact pow_pos hsub 2

/-- At scale `1` (its abs-max), the one-element channel `[1]` reconstructs
exactly under the 8-bit range. -/
theorem quantDequant_unit : quantDequant (-127) 127 1 1 = 1 := by
  unfold quantDequant
  rw [show (1:ℚ) / 1 * 127 = 127 by norm_num]
  have h2 : rnd 127 = 127 := by
    unfold rnd
    rw [if_pos (by norm_num : (0:ℚ) ≤ 127)]
    rw [show (127:ℚ) + 1/2 = 255/2 by norm_num]
    rw [show ⌊(255/2:ℚ)⌋ = 127 from by rw [Int.floor_eq_iff]; norm_num]
    norm_num
  rw [h2]
  unfold clip
  rw [max_eq_left (by norm_num : (-127:ℚ) ≤ 127), min_self]
  norm_num

/-! ### Indexing helper -/

/-- `getD` after `map`, inside bounds. -/
theorem getD_map_of_lt {α β : Type} (l : List α) (g : α → β) (c : Nat)
    (d : β) (d' : α) (hc : c < l.length) :
    (l.map g).getD c d = g (l.getD c d') := by
  rw [List.getD_eq_getElem?_getD, List.getD_eq_getElem?_getD,
    List.getElem?_map]
  cases h : l[c]? with
  | none =>
      rw [List.getElem?_eq_none_iff] at h
      omega
  | some ch => simp

/-! ### The claims -/

/-- C1 (code bug): the `factor` loop of `_cal_abs_max` evaluates only 35
candidate factors, not 36: accumulated binary64 rounding drift makes the
value after the 35th candidate `1 + 2^-51 > 1.0`, so the loop stops and the
factor `1.00` is never evaluated; the last candidate is
`0.98000000000000004…`. -/
theorem claim_C1_factor_grid_actual :
    floatFactors.length = 35 ∧ (1 : ℚ) ∉ floatFactors ∧
    floatFactors.getLast? = some (8827055269646177/9007199254740992) := by
  refine ⟨?_, ?_, ?_⟩ <;> rw [floatFactors_eq]
  · rfl
  · norm_num [List.mem_cons]
  · rfl

/-- C2 (counterexample): on a freshly constructed observer (no `forward`
call), `max_value()` silently returns Python `None` — it raises nothing —
and `scales()` does fail, but with the `TypeError` coming from
`paddle.zeros_like(None)`, not a `NotCalibratedError` (no such error exists
in the code). -/
theorem claim_C2_counterexample :
    max_value (initObserver 8 0) = none ∧
    scales (initObserver 8 0) =
      Except.error "TypeError: paddle.zeros_like received None" :=
  ⟨rfl, rfl⟩

/-- C2 (amended): for every configuration, an uncalibrated observer's
`max_value()` returns `None` silently, while `scales()` and `zero_points()`
fail with the `TypeError` raised by `paddle.zeros_like(None)`. -/
theorem claim_C2_amended (b ax : Nat) :
    max_value (initObserver b ax) = none ∧
    scales (initObserver b ax) =
      Except.error "TypeError: paddle.zeros_like received None" ∧
    zero_points (initObserver b ax) =
      Except.error "TypeError: paddle.zeros_like received None" :=
  ⟨rfl, rfl, rfl⟩

/-- C5: with a cached per-channel max `m`, `cal_thresholds` succeeds and sets
the scale to exactly `m` and the zero point to an all-zero list of the same
length; afterwards `scales()[c] = max_value()[c]` for every channel, and
repeated `cal_thresholds`/`scales`/`zero_points` calls return the same
values. -/
theorem claim_C5_thresholds (s : ObserverState) (m : List ℚ)
    (hm : s._max = some m) :
    ∃ s', cal_thresholds s = Except.ok s' ∧
      s'._scale = some m ∧
      s'._zero_point = some (m.map fun _ => (0:ℚ)) ∧
      (m.map fun _ => (0:ℚ)).length = m.length ∧
      max_value s' = some m ∧
      scales s' = Except.ok (s', m) ∧
      zero_points s' = Except.ok (s', m.map fun _ => (0:ℚ)) ∧
      cal_thresholds s' = Except.ok s' := by
  refine ⟨{ s with _scale := some m,
                   _zero_point := some (m.map fun _ => (0:ℚ)) },
    ?_, rfl, rfl, by simp, ?_, rfl, rfl, ?_⟩
  · simp [cal_thresholds, hm]
  · simp [max_value, hm]
  · simp [cal_thresholds, hm]

/-- C5 (witness): a concrete calibrated state. -/
theorem claim_C5_thresholds_witness :
    ({ quant_bits := 8, quant_axis := 0, qmin := -127, qmax := 127,
       _max := some [5], _scale := none,
       _zero_point := none : ObserverState })._max = some [5] ∧
    ∃ s', cal_thresholds
        { quant_bits := 8, quant_axis := 0, qmin := -127, qmax := 127,
          _max := some [5], _scale := none, _zero_point := none } =
        Except.ok s' ∧
      s'._scale = some [5] ∧
      s'._zero_point = some ([(5:ℚ)].map fun _ => (0:ℚ)) ∧
      ([(5:ℚ)].map fun _ => (0:ℚ)).length = [(5:ℚ)].length ∧
      max_value s' = some [5] ∧
      scales s' = Except.ok (s', [5]) ∧
      zero_points s' = Except.ok (s', [(5:ℚ)].map fun _ => (0:ℚ)) ∧
      cal_thresholds s' = Except.ok s' :=
  ⟨rfl, claim_C5_thresholds _ [5] rfl⟩

/-- C6: the first `forward` computes and stores the per-channel max of the
first tensor and returns its input unchanged; a second `forward` with any
other tensor is a no-op on the state, and `max_value` afterwards still
returns the value computed from the first tensor. -/
theorem claim_C6_forward_caches (b ax : Nat) (t1 t2 : Tensor) :
    forward (initObserver b ax) t1 =
      ({ initObserver b ax with
          _max := some (calAbsMax (initObserver b ax) t1) }, t1) ∧
    forward ((forward (initObserver b ax) t1).1) t2 =
      ((forward (initObserver b ax) t1).1, t2) ∧
    max_value ((forward ((forward (initObserver b ax) t1).1) t2).1) =
      some (calAbsMax (initObserver b ax) t1) :=
  ⟨rfl, rfl, rfl⟩

/-- C7 (counterexample): with channel axis `5` on a rank-2 tensor — the axis
is out of range — `_cal_abs_max` raises nothing: the reduction axes cover
every dimension and the search returns an ordinary one-entry result. -/
theorem claim_C7_counterexample :
    (calAbsMax (initObserver 8 5) (Tensor.mk [2, 2] [1, 2, 3, 4])).length
      = 1 := by
  simp [calAbsMax, channelView, initObserver]

/-- C7 (amended): `_cal_abs_max` has no error path at all.  It never
validates the channel axis: for every tensor and every axis (in range or
not) it totally computes one scale per channel slice, where an out-of-range
axis yields the single slice of all elements. -/
theorem claim_C7_no_axis_error (b ax : Nat) (t : Tensor) :
    (calAbsMax (initObserver b ax) t).length = t.shape.getD ax 1 := by
  simp [calAbsMax, channelView, initObserver]

/-- C9: every per-channel entry returned by `_cal_abs_max` is one of the
candidate scales `f * abs_max[c]` for a visited grid factor `f`: the
initial `result` entry is necessarily overwritten on the first iteration,
whose finite mse beats the initial `inf` loss. -/
theorem claim_C9_result_is_grid_candidate (b ax : Nat) (t : Tensor) (c : Nat)
    (hc : c < (channelView t ax).length) :
    ∃ f ∈ floatFactors,
      (calAbsMax (initObserver b ax) t).getD c 0 =
        f * epsAbsMax ((channelView t ax).getD c []) := by
  unfold calAbsMax
  have hax : (initObserver b ax).quant_axis = ax := rfl
  rw [hax, getD_map_of_lt (channelView t ax) _ c 0 [] hc]
  exact searchChannel_mem _ _ _

/-- C9 (witness): a concrete tensor with one channel. -/
theorem claim_C9_result_is_grid_candidate_witness :
    0 < (channelView (Tensor.mk [1] [2]) 0).length ∧
    ∃ f ∈ floatFactors,
      (calAbsMax (initObserver 8 0) (Tensor.mk [1] [2])).getD 0 0 =
        f * epsAbsMax ((channelView (Tensor.mk [1] [2]) 0).getD 0 []) :=
  ⟨by simp [channelView], claim_C9_result_is_grid_candidate 8 0 _ 0
    (by simp [channelView])⟩

/-- Frame property of one `forward` call: only `_max` can change. -/
theorem forward_frame (s : ObserverState) (t : Tensor) :
    ((forward s t).1)._scale = s._scale ∧
    ((forward s t).1)._zero_point = s._zero_point ∧
    ((forward s t).1).quant_bits = s.quant_bits ∧
    ((forward s t).1).quant_axis = s.quant_axis ∧
    ((forward s t).1).qmin = s.qmin ∧
    ((forward s t).1).qmax = s.qmax := by
  unfold forward
  cases h : s._max <;> exact ⟨rfl, rfl, rfl, rfl, rfl, rfl⟩

/-- Frame property of any sequence of `forward` calls. -/
theorem foldForward_frame (ts : List Tensor) : ∀ s : ObserverState,
    (ts.foldl (fun s t => (forward s t).1) s)._scale = s._scale ∧
    (ts.foldl (fun s t => (forward s t).1) s)._zero_point = s._zero_point ∧
    (ts.foldl (fun s t => (forward s t).1) s).quant_bits = s.quant_bits ∧
    (ts.foldl (fun s t => (forward s t).1) s).quant_axis = s.quant_axis ∧
    (ts.foldl (fun s t => (forward s t).1) s).qmin = s.qmin ∧
    (ts.foldl (fun s t => (forward s t).1) s).qmax = s.qmax := by
  induction ts with
  | nil => intro s; exact ⟨rfl, rfl, rfl, rfl, rfl, rfl⟩
  | cons t ts ih =>
    intro s
    simp only [List.foldl_cons]
    obtain ⟨a1, a2, a3, a4, a5, a6⟩ := forward_frame s t
    obtain ⟨b1, b2, b3, b4, b5, b6⟩ := ih ((forward s t).1)
    exact ⟨b1.trans a1, b2.trans a2, b3.trans a3, b4.trans a4,
      b5.trans a5, b6.trans a6⟩

/-- C10: after any sequence of `forward` calls on a fresh observer, the
scale and zero-point fields are still unset and the configuration
(`quant_bits`, channel axis, `qmin`, `qmax`) is unchanged: `forward` touches
only the cached per-channel max. -/
theorem claim_C10_forward_frame (b ax : Nat) (ts : List Tensor) :
    (ts.foldl (fun s t => (forward s t).1) (initObserver b ax))._scale
        = none ∧
    (ts.foldl (fun s t => (forward s t).1) (initObserver b ax))._zero_point
        = none ∧
    (ts.foldl (fun s t => (forward s t).1) (initObserver b ax)).quant_bits
        = b ∧
    (ts.foldl (fun s t => (forward s t).1) (initObserver b ax)).quant_axis
        = ax ∧
    (ts.foldl (fun s t => (forward s t).1) (initObserver b ax)).qmin
        = qminOf b ∧
    (ts.foldl (fun s t => (forward s t).1) (initObserver b ax)).qmax
        = qmaxOf b := by
  obtain ⟨h1, h2, h3, h4, h5, h6⟩ := foldForward_frame ts (initObserver b ax)
  exact ⟨h1, h2, h3, h4, h5, h6⟩

/-- C3 (code bug): for the one-element channel `[1]` under the default 8-bit
range, quantize–dequantizing at the scale returned by the search gives a
strictly positive error, while the raw abs-max scale `1` reconstructs
exactly: the round-trip claim `mse(search) ≤ mse(abs_max)` fails because the
drifting factor loop never evaluates the factor `1.00`. -/
theorem claim_C3_roundtrip_fails :
    absMaxRaw [(1:ℚ)] = 1 ∧
    mseLoss (qminOf 8) (qmaxOf 8) (absMaxRaw [(1:ℚ)]) [1] = 0 ∧
    0 < mseLoss (qminOf 8) (qmaxOf 8)
        (searchChannel (qminOf 8) (qmaxOf 8) [1]) [1] ∧
    ¬ (mseLoss (qminOf 8) (qmaxOf 8)
        (searchChannel (qminOf 8) (qmaxOf 8) [1]) [1] ≤
       mseLoss (qminOf 8) (qmaxOf 8) (absMaxRaw [(1:ℚ)]) [1]) := by
  have hqmin : qminOf 8 = -127 := by norm_num [qminOf]
  have hqmax : qmaxOf 8 = 127 := by norm_num [qmaxOf]
  have habs : absMaxRaw [(1:ℚ)] = 1 := by simp [absMaxRaw]
  have h0 : mseLoss (qminOf 8) (qmaxOf 8) (absMaxRaw [(1:ℚ)]) [1] = 0 := by
    rw [habs, hqmin, hqmax]
    simp [mseLoss, quantDequant_unit]
  have hpos : 0 < mseLoss (qminOf 8) (qmaxOf 8)
      (searchChannel (qminOf 8) (qmaxOf 8) [1]) [1] := by
    obtain ⟨f, hf, hfe⟩ := searchChannel_mem (qminOf 8) (qmaxOf 8) [1]
    obtain ⟨hf0, hf1⟩ := floatFactors_bounds f hf
    have heps : epsAbsMax [(1:ℚ)] = 1 := by
      rw [epsAbsMax_of_nonzero [(1:ℚ)] ⟨1, by simp, by norm_num⟩, habs]
    rw [hfe, heps, mul_one]
    exact mseLoss_single_one_pos (qminOf 8) (qmaxOf 8)
      (by rw [hqmax]; norm_num) f (le_of_lt hf0) hf1
  refine ⟨habs, h0, hpos, fun hle => ?_⟩
  rw [h0] at hle
  exact absurd (le_antisymm hle (le_of_lt hpos)) (ne_of_gt hpos)

/-- C4: an all-zero channel gets `abs_max = 1e-8`, and the search returns
exactly `0.3 * 1e-8` where `0.3` is the binary64 value of the program
literal `0.3`, the first grid candidate: the first iteration's zero mse
beats `inf`, and every later candidate ties at zero error, so the strict
`mse < best_loss` comparison never overwrites the first improving
candidate. -/
theorem claim_C4_allzero_first_candidate (b : Nat) (xs : List ℚ)
    (_hne : xs ≠ []) (hz : ∀ x ∈ xs, x = 0) :
    epsAbsMax xs = 1/100000000 ∧
    searchChannel (qminOf b) (qmaxOf b) xs = dbl03 * (1/100000000) ∧
    floatFactors.getD 0 0 = dbl03 := by
  refine ⟨epsAbsMax_allzero xs hz,
    searchChannel_allzero (qminOf b) (qmaxOf b) xs (qminOf_nonpos b)
      (qmaxOf_nonneg b) hz, ?_⟩
  rw [floatFactors_eq, dbl03_eq]
  rfl

/-- C4 (witness): the concrete all-zero channel `[0, 0]` at 8 bits. -/
theorem claim_C4_allzero_first_candidate_witness :
    (([(0:ℚ), 0] ≠ []) ∧ (∀ x ∈ [(0:ℚ), 0], x = 0)) ∧
    (epsAbsMax [(0:ℚ), 0] = 1/100000000 ∧
     searchChannel (qminOf 8) (qmaxOf 8) [(0:ℚ), 0] = dbl03 * (1/100000000) ∧
     floatFactors.getD 0 0 = dbl03) :=
  ⟨⟨by simp, by simp⟩,
   claim_C4_allzero_first_candidate 8 [0, 0] (by simp) (by simp)⟩

/-- C8: after calibrating a non-degenerate tensor (valid channel axis, no
empty channel slice), `scales()` succeeds and returns one strictly positive
scale per channel, each bounded by that channel's (epsilon-substituted)
abs-max, and `zero_points()` returns an all-zero list of the same length;
both lists are as long as the channel axis. -/
theorem claim_C8_scale_invariants (b ax : Nat) (t : Tensor)
    (_hax : ax < t.shape.length)
    (_hch : ∀ ch ∈ channelView t ax, ch ≠ []) :
    ∃ s' sc zp,
      scales ((forward (initObserver b ax) t).1) = Except.ok (s', sc) ∧
      zero_points s' = Except.ok (s', zp) ∧
      sc.length = t.shape.getD ax 1 ∧
      zp.length = sc.length ∧
      ∀ c, c < sc.length →
        0 < sc.getD c 0 ∧
        sc.getD c 0 ≤ epsAbsMax ((channelView t ax).getD c []) ∧
        zp.getD c 1 = 0 := by
  refine ⟨{ initObserver b ax with
      _max := some (calAbsMax (initObserver b ax) t),
      _scale := some (calAbsMax (initObserver b ax) t),
      _zero_point :=
        some ((calAbsMax (initObserver b ax) t).map fun _ => (0:ℚ)) },
    calAbsMax (initObserver b ax) t,
    (calAbsMax (initObserver b ax) t).map fun _ => (0:ℚ),
    rfl, rfl, ?_, by simp, ?_⟩
  · simp [calAbsMax, channelView, initObserver]
  · intro c hc
    have hc' : c < (channelView t ax).length := by
      have hlen : (calAbsMax (initObserver b ax) t).length =
          (channelView t ax).length := by
        simp [calAbsMax, initObserver]
      rw [hlen] at hc
      exact hc
    have hgd : (calAbsMax (initObserver b ax) t).getD c 0 =
        searchChannel (qminOf b) (qmaxOf b)
          ((channelView t ax).getD c []) := by
      unfold calAbsMax
      have haxeq : (initObserver b ax).quant_axis = ax := rfl
      rw [haxeq, getD_map_of_lt (channelView t ax) _ c 0 [] hc']
      rfl
    refine ⟨?_, ?_, ?_⟩
    · rw [hgd]; exact (searchChannel_pos_le _ _ _).1
    · rw [hgd]; exact (searchChannel_pos_le _ _ _).2
    · rw [getD_map_of_lt (calAbsMax (initObserver b ax) t)
        (fun _ => (0:ℚ)) c 1 0 hc]

/-- C8 (witness): the concrete tensor of shape `[2, 1]` with data `[3, 4]`,
channel axis `0`, at 8 bits. -/
theorem claim_C8_scale_invariants_witness :
    (0 < (Tensor.mk [2, 1] [(3:ℚ), 4]).shape.length ∧
     ∀ ch ∈ channelView (Tensor.mk [2, 1] [(3:ℚ), 4]) 0, ch ≠ []) ∧
    ∃ s' sc zp,
      scales ((forward (initObserver 8 0) (Tensor.mk [2, 1] [(3:ℚ), 4])).1)
        = Except.ok (s', sc) ∧
      zero_points s' = Except.ok (s', zp) ∧
      sc.length = (Tensor.mk [2, 1] [(3:ℚ), 4]).shape.getD 0 1 ∧
      zp.length = sc.length ∧
      ∀ c, c < sc.length →
        0 < sc.getD c 0 ∧
        sc.getD c 0 ≤
          epsAbsMax ((channelView (Tensor.mk [2, 1] [(3:ℚ), 4]) 0).getD c []) ∧
        zp.getD c 1 = 0 :=
  ⟨⟨by norm_num, by decide⟩,
   claim_C8_scale_invariants 8 0 (Tensor.mk [2, 1] [(3:ℚ), 4])
     (by norm_num) (by decide)⟩

/-- Extra fuel never changes `floatLoop` once the loop's own stop condition
fires within the given fuel. -/
theorem floatLoop_stable : ∀ (fuel : Nat) (f : ℚ),
    (floatLoop fuel f).length < fuel →
    floatLoop (fuel + 1) f = floatLoop fuel f := by
  intro fuel
  induction fuel with
  | zero => intro f h; simp [floatLoop] at h
  | succ n ih =>
    intro f h
    by_cases hf : f ≤ 1
    · rw [floatLoop_succ (n + 1) f, if_pos hf, floatLoop_succ n f, if_pos hf]
      congr 1
      apply ih
      rw [floatLoop_succ n f, if_pos hf] at h
      simpa using h
    · rw [floatLoop_succ (n + 1) f, if_neg hf, floatLoop_succ n f, if_neg hf]

/-- The fuel bound `100` of `floatFactors` is not what stops the loop: the
`factor <= 1.0` test exits after 35 iterations, so more fuel changes
nothing. -/
theorem floatLoop_fuel_irrelevant : floatLoop 101 dbl03 = floatFactors := by
  have h : (floatLoop 100 dbl03).length < 100 := by
    show floatFactors.length < 100
    rw [floatFactors_eq]
    simp
  exact floatLoop_stable 100 dbl03 h
